import Mathlib

/-!
Verification of the Photon kernel's descriptor-table and interrupt-dispatch
subsystem (`src/kernel/src/arch/x86_64/…`) and the physical-address helper
(`src/kernel/src/memory/addr.rs`).

Machine integers are embedded as `Nat` with explicit `% 2 ^ w` at the points
where the Rust code performs a truncating cast or where a fixed-width wrap can
occur.  Register files and stacks are explicit data; the hand-written
trampoline assembly is embedded as a small-step state transformer over a
register file, a stack-pointer value and a word-addressed stack (head of the
list is the word at address `rsp`; a `push` writes the head and subtracts 8).
-/

set_option maxRecDepth 4000

/-! ## Privilege levels and segment selectors (`arch/x86_64/mod.rs`, `gdt.rs`) -/

/-- `PrivilegeLevel` from `arch/x86_64/mod.rs`: `{ Kernel = 0, User = 3 }`. -/
inductive PrivilegeLevel where
  | Kernel
  | User
deriving DecidableEq

/-- The discriminant value of a `PrivilegeLevel` (`Kernel = 0`, `User = 3`). -/
def PrivilegeLevel.toNat : PrivilegeLevel → Nat
  | .Kernel => 0
  | .User => 3

/-- `SegmentSelector` from `gdt.rs`: a 16-bit value. -/
structure SegmentSelector where
  val : Nat
deriving DecidableEq

/-- `SegmentSelector::new` from `gdt.rs`:
`Self(index << 3 | (privilege as u16))`, on `u16`. -/
def SegmentSelector.new (index : Nat) (privilege : PrivilegeLevel) : SegmentSelector :=
  ⟨(index <<< 3) % 2 ^ 16 ||| privilege.toNat⟩

/-- `KERNEL_CODE_SELECTOR` from `gdt.rs`. -/
def KERNEL_CODE_SELECTOR : SegmentSelector := SegmentSelector.new 1 .Kernel

/-- `KERNEL_DATA_SELECTOR` from `gdt.rs`. -/
def KERNEL_DATA_SELECTOR : SegmentSelector := SegmentSelector.new 2 .Kernel

/-! ## GDT entries (`gdt.rs`) -/

/-- `GdtAccessFlags::RW`. -/
def GdtAccessFlags.RW : Nat := 1 <<< 1

/-- `GdtAccessFlags::DESCRIPTOR_TYPE`. -/
def GdtAccessFlags.DESCRIPTOR_TYPE : Nat := 1 <<< 4

/-- `GdtAccessFlags::EXECUTABLE`. -/
def GdtAccessFlags.EXECUTABLE : Nat := 1 <<< 3

/-- `GdtAccessFlags::KERNEL`. -/
def GdtAccessFlags.KERNEL : Nat := 0 <<< 5

/-- `GdtAccessFlags::PRESENT`. -/
def GdtAccessFlags.PRESENT : Nat := 1 <<< 7

/-- `GdtEntryFlags::PROTECTED_MODE` bit. -/
def GdtEntryFlags.PROTECTED_MODE : Nat := 1 <<< 6

/-- `GdtEntryFlags::LONG_MODE` bit. -/
def GdtEntryFlags.LONG_MODE : Nat := 1 <<< 5

/-- `GdtEntryFlags::empty()`. -/
def GdtEntryFlags.empty : Nat := 0

/-- `GdtEntry` from `gdt.rs` (field-for-field). -/
structure GdtEntry where
  limit_low : Nat
  base_low : Nat
  base_middle : Nat
  access : Nat
  limit_high_flags : Nat
  base_high : Nat
deriving DecidableEq

/-- `GdtEntry::new(access, flags)` from `gdt.rs`. -/
def GdtEntry.new (access : Nat) (flags : Nat) : GdtEntry :=
  { limit_low := 0x00
    base_low := 0x00
    base_middle := 0x00
    access := access
    limit_high_flags := flags &&& 0xF0
    base_high := 0x00 }

/-- `GDT_ENTRIES` from `gdt.rs`. -/
def GDT_ENTRIES : Nat := 3

/-- The static `GDT` from `gdt.rs`: null descriptor, kernel code segment,
kernel data segment. -/
def GDT : List GdtEntry :=
  [ GdtEntry.new 0 GdtEntryFlags.empty,
    GdtEntry.new
      (GdtAccessFlags.PRESENT ||| GdtAccessFlags.KERNEL ||| GdtAccessFlags.DESCRIPTOR_TYPE |||
        GdtAccessFlags.EXECUTABLE ||| GdtAccessFlags.RW)
      GdtEntryFlags.LONG_MODE,
    GdtEntry.new
      (GdtAccessFlags.PRESENT ||| GdtAccessFlags.KERNEL ||| GdtAccessFlags.DESCRIPTOR_TYPE |||
        GdtAccessFlags.RW)
      GdtEntryFlags.LONG_MODE ]

/-- Decoding of a selector value as described by the spec's round-trip
property: descriptor index is `value >> 3`, privilege is `value & 3`. -/
def SegmentSelector.decode (v : Nat) : Nat × Nat := (v >>> 3, v &&& 3)

/-! ## Theorems for the GDT and selector claims -/

/-- C4, as stated: every one of the three GDT entries would have the present
bit (bit 7) of its access byte set.  False: the null descriptor at index 0 has
access byte `0`. -/
theorem gdt_present_all_three_false :
    ¬ (∀ e ∈ GDT, e.access.testBit 7 = true) := by
  decide

/-- C4, amended: the two non-null GDT entries (indices 1 and 2) have the
present bit of their access byte set, and the null entry at index 0 encodes
all-zero fields. -/
theorem gdt_present_and_null :
    ((GDT.getD 1 (GdtEntry.new 0 0)).access.testBit 7 = true) ∧
    ((GDT.getD 2 (GdtEntry.new 0 0)).access.testBit 7 = true) ∧
    GDT.getD 0 (GdtEntry.new 0 0) =
      { limit_low := 0, base_low := 0, base_middle := 0, access := 0,
        limit_high_flags := 0, base_high := 0 } := by
  decide

/-- C9: for every index below 3 and both privilege levels, building a
`SegmentSelector` and decoding the 16-bit value (index `= value >> 3`,
privilege `= value & 3`) recovers the original pair. -/
theorem segment_selector_roundtrip (index : Nat) (p : PrivilegeLevel)
    (h : index < 3) :
    SegmentSelector.decode (SegmentSelector.new index p).val = (index, p.toNat) := by
  interval_cases index <;> cases p <;> decide

/-- Witness for C9's theorem at index 1, privilege `Kernel`. -/
theorem segment_selector_roundtrip_witness :
    (1 : Nat) < 3 ∧
      SegmentSelector.decode (SegmentSelector.new 1 .Kernel).val =
        (1, PrivilegeLevel.toNat .Kernel) :=
  ⟨by decide, segment_selector_roundtrip 1 .Kernel (by decide)⟩

/-! ## IDT entries and the IDT (`arch/x86_64/interrupts/idt.rs`) -/

/-- `INTERRUPT_GATE` from `idt.rs`. -/
def INTERRUPT_GATE : Nat := 0x0e

/-- `IDT_ENTRIES` from `idt.rs`. -/
def IDT_ENTRIES : Nat := 256

/-- `IdtEntryAttributes` from `idt.rs`: a `u8`. -/
structure IdtEntryAttributes where
  val : Nat
deriving DecidableEq

/-- `IdtEntryAttributes::new` from `idt.rs`:
`Self(1 << 7 | (privelege as u8) | INTERRUPT_GATE)`. -/
def IdtEntryAttributes.new (privilege : PrivilegeLevel) : IdtEntryAttributes :=
  ⟨1 <<< 7 ||| privilege.toNat ||| INTERRUPT_GATE⟩

/-- `IdtEntryAttributes::kernel()` from `idt.rs`. -/
def IdtEntryAttributes.kernel : IdtEntryAttributes :=
  IdtEntryAttributes.new .Kernel

/-- `IdtEntry` from `idt.rs` (field-for-field). -/
structure IdtEntry where
  offset_low : Nat
  selector : SegmentSelector
  ist : Nat
  attributes : IdtEntryAttributes
  offset_middle : Nat
  offset_high : Nat
  reserved : Nat
deriving DecidableEq

/-- `IdtEntry::new(offset, selector, attributes)` from `idt.rs`; the three
offset fields are the truncating casts `offset as u16`,
`(offset >> 16) as u16`, `(offset >> 32) as u32`. -/
def IdtEntry.new (offset : Nat) (selector : SegmentSelector)
    (attributes : IdtEntryAttributes) : IdtEntry :=
  { offset_low := offset % 2 ^ 16
    selector := selector
    ist := 0
    attributes := attributes
    offset_middle := (offset >>> 16) % 2 ^ 16
    offset_high := (offset >>> 32) % 2 ^ 32
    reserved := 0 }

/-- `IdtEntry::EMPTY` from `idt.rs`. -/
def IdtEntry.EMPTY : IdtEntry :=
  IdtEntry.new 0 KERNEL_CODE_SELECTOR IdtEntryAttributes.kernel

/-- `Idt` from `idt.rs`: 256 entries. -/
structure Idt where
  entries : List IdtEntry
deriving DecidableEq

/-- `Idt::new()` from `idt.rs`: all entries `IdtEntry::EMPTY`. -/
def Idt.new : Idt :=
  ⟨List.replicate IDT_ENTRIES IdtEntry.EMPTY⟩

/-- Modelled from the spec: the body of `Idt::set_handler` is not under
`src/` (only its callers in `register_exceptions` and the spec's §4.2
contract appear).  Per the spec it "overwrites one entry with a populated
descriptor pointing at the given trampoline, using the kernel code selector
and interrupt-gate attributes". -/
def Idt.set_handler (idt : Idt) (vector : Nat) (offset : Nat) : Idt :=
  ⟨idt.entries.set vector
    (IdtEntry.new offset KERNEL_CODE_SELECTOR IdtEntryAttributes.kernel)⟩

/-- The reassembly of an IDT entry's three offset fields, as the spec's
read-back property states it: `low | mid << 16 | high << 32`. -/
def IdtEntry.reassemble (e : IdtEntry) : Nat :=
  e.offset_low ||| (e.offset_middle <<< 16) ||| (e.offset_high <<< 32)

/-! ## Exception registration (`arch/x86_64/interrupts/exceptions.rs`) -/

/-- The addresses of the 23 exception trampolines defined in
`exceptions.rs`; each field is the address of the correspondingly named
`#[naked]` handler function. -/
structure Handlers where
  divide_by_zero : Nat
  debug : Nat
  non_maskable_interrupt : Nat
  breakpoint : Nat
  overflow : Nat
  bound_range_exceeded : Nat
  invalid_opcode : Nat
  device_not_available : Nat
  double_fault : Nat
  invalid_tss : Nat
  segment_not_present : Nat
  stack_segment_fault : Nat
  general_protection_fault : Nat
  page_fault : Nat
  x87_floating_point : Nat
  alignment_check : Nat
  machine_check : Nat
  simd_floating_point : Nat
  virtualization : Nat
  control_protection : Nat
  hypervisor_injection : Nat
  vmm_communication : Nat
  security_exception : Nat
deriving DecidableEq

/-- The `(vector, handler)` pairs exactly as the `set_handler` calls appear,
in order, in `register_exceptions()` in `exceptions.rs`. -/
def registration_list : List (Nat × (Handlers → Nat)) :=
  [ (0, Handlers.divide_by_zero),
    (1, Handlers.debug),
    (2, Handlers.non_maskable_interrupt),
    (3, Handlers.breakpoint),
    (4, Handlers.overflow),
    (5, Handlers.bound_range_exceeded),
    (6, Handlers.invalid_opcode),
    (7, Handlers.device_not_available),
    (8, Handlers.double_fault),
    (10, Handlers.invalid_tss),
    (11, Handlers.segment_not_present),
    (12, Handlers.stack_segment_fault),
    (13, Handlers.general_protection_fault),
    (14, Handlers.page_fault),
    (16, Handlers.x87_floating_point),
    (17, Handlers.alignment_check),
    (18, Handlers.machine_check),
    (19, Handlers.simd_floating_point),
    (20, Handlers.virtualization),
    (21, Handlers.control_protection),
    (28, Handlers.hypervisor_injection),
    (29, Handlers.vmm_communication),
    (30, Handlers.security_exception) ]

/-- The 23 registered vector numbers, in registration order. -/
def registered_vectors : List Nat := registration_list.map Prod.fst

/-- `register_exceptions()` from `exceptions.rs`: performs the 23
`set_handler` calls of `registration_list` in order on the locked IDT. -/
def register_exceptions (a : Handlers) (idt : Idt) : Idt :=
  registration_list.foldl (fun idt p => idt.set_handler p.1 (p.2 a)) idt

/-! ## Helper lemmas for IDT claims -/

theorem Idt.set_handler_getD_ne (idt : Idt) (i w off : Nat) (d : IdtEntry)
    (h : i ≠ w) :
    (idt.set_handler i off).entries.getD w d = idt.entries.getD w d := by
  simp [Idt.set_handler, List.getD_eq_getElem?_getD, List.getElem?_set_ne h]

theorem Idt.set_handler_getD_self (idt : Idt) (i off : Nat) (d : IdtEntry)
    (h : i < idt.entries.length) :
    (idt.set_handler i off).entries.getD i d =
      IdtEntry.new off KERNEL_CODE_SELECTOR IdtEntryAttributes.kernel := by
  simp [Idt.set_handler, List.getD_eq_getElem?_getD, List.getElem?_set_self h]

theorem register_fold_getD_not_mem (l : List (Nat × (Handlers → Nat)))
    (a : Handlers) (idt : Idt) (v : Nat) (d : IdtEntry)
    (h : v ∉ l.map Prod.fst) :
    ((l.foldl (fun idt p => idt.set_handler p.1 (p.2 a)) idt).entries.getD v d) =
      idt.entries.getD v d := by
  induction l generalizing idt with
  | nil => rfl
  | cons p rest ih =>
      simp only [List.map_cons, List.mem_cons, not_or] at h
      rw [List.foldl_cons, ih _ h.2, Idt.set_handler_getD_ne _ _ _ _ _ (Ne.symm h.1)]

theorem Idt.new_getD (v : Nat) :
    Idt.new.entries.getD v IdtEntry.EMPTY = IdtEntry.EMPTY := by
  simp only [Idt.new, List.getD_eq_getElem?_getD, List.getElem?_replicate]
  split <;> rfl

theorem IdtEntry.reassemble_new (offset : Nat) (h : offset < 2 ^ 64)
    (sel : SegmentSelector) (attr : IdtEntryAttributes) :
    (IdtEntry.new offset sel attr).reassemble = offset := by
  apply Nat.eq_of_testBit_eq
  intro i
  simp only [IdtEntry.reassemble, IdtEntry.new, Nat.testBit_or,
    Nat.testBit_shiftLeft, Nat.testBit_mod_two_pow, Nat.testBit_shiftRight]
  by_cases h1 : i < 16
  · have n16 : ¬ 16 ≤ i := by omega
    have n32 : ¬ 32 ≤ i := by omega
    simp [h1, n16, n32]
  · by_cases h2 : i < 32
    · have y16 : 16 ≤ i := by omega
      have l16 : i - 16 < 16 := by omega
      have n32 : ¬ 32 ≤ i := by omega
      have e16 : 16 + (i - 16) = i := by omega
      simp [h1, y16, l16, n32, e16]
    · by_cases h3 : i < 64
      · have y32 : 32 ≤ i := by omega
        have l32 : i - 32 < 32 := by omega
        have nl16 : ¬ i - 16 < 16 := by omega
        have e32 : 32 + (i - 32) = i := by omega
        simp [h1, y32, l32, nl16, e32]
      · have hoff : offset.testBit i = false :=
          Nat.testBit_lt_two_pow
            (lt_of_lt_of_le h (Nat.pow_le_pow_right (by omega) (by omega)))
        have nl16 : ¬ i - 16 < 16 := by omega
        have nl32 : ¬ i - 32 < 32 := by omega
        simp [h1, hoff, nl16, nl32]

/-! ## Theorems for the IDT claims -/

/-- C5: every vector never registered through `set_handler` still holds
`IdtEntry::EMPTY` after `register_exceptions`: handler offset fields all 0,
present bit (bit 7 of the attributes byte) set, kernel code selector, IST 0. -/
theorem unregistered_entries_empty (a : Handlers) (v : Nat)
    (hv : v < 256) (hmem : v ∉ registered_vectors) :
    (register_exceptions a Idt.new).entries.getD v IdtEntry.EMPTY = IdtEntry.EMPTY ∧
    ((register_exceptions a Idt.new).entries.getD v IdtEntry.EMPTY).offset_low = 0 ∧
    ((register_exceptions a Idt.new).entries.getD v IdtEntry.EMPTY).offset_middle = 0 ∧
    ((register_exceptions a Idt.new).entries.getD v IdtEntry.EMPTY).offset_high = 0 ∧
    ((register_exceptions a Idt.new).entries.getD v IdtEntry.EMPTY).attributes.val.testBit 7 = true ∧
    ((register_exceptions a Idt.new).entries.getD v IdtEntry.EMPTY).selector = KERNEL_CODE_SELECTOR ∧
    ((register_exceptions a Idt.new).entries.getD v IdtEntry.EMPTY).ist = 0 := by
  have hd : (register_exceptions a Idt.new).entries.getD v IdtEntry.EMPTY = IdtEntry.EMPTY := by
    rw [register_exceptions, register_fold_getD_not_mem _ _ _ _ _ hmem, Idt.new_getD]
  refine ⟨hd, ?_, ?_, ?_, ?_, ?_, ?_⟩ <;> rw [hd] <;> decide

/-- Witness for C5's theorem at the unregistered vector 9 (all trampoline
addresses 0). -/
theorem unregistered_entries_empty_witness :
    ((9 : Nat) < 256 ∧ (9 : Nat) ∉ registered_vectors) ∧
      (register_exceptions ⟨0, 0, 0, 0, 0, 0, 0, 0, 0, 0, 0, 0, 0, 0, 0, 0, 0,
          0, 0, 0, 0, 0, 0⟩ Idt.new).entries.getD 9 IdtEntry.EMPTY = IdtEntry.EMPTY :=
  ⟨⟨by decide, by decide⟩,
    (unregistered_entries_empty
      ⟨0, 0, 0, 0, 0, 0, 0, 0, 0, 0, 0, 0, 0, 0, 0, 0, 0, 0, 0, 0, 0, 0, 0⟩ 9
      (by decide) (by decide)).1⟩

/-- C6: for each registered exception vector, `set_handler` followed by a
read-back of that entry yields a descriptor whose three offset fields
reassemble (`low | mid << 16 | high << 32`) to the trampoline address that
was passed in. -/
theorem set_handler_readback (idt : Idt) (v off : Nat)
    (hlen : idt.entries.length = 256) (hv : v ∈ registered_vectors)
    (hoff : off < 2 ^ 64) :
    ((idt.set_handler v off).entries.getD v IdtEntry.EMPTY).reassemble = off := by
  have hv256 : v < 256 := (by decide : ∀ x ∈ registered_vectors, x < 256) v hv
  rw [Idt.set_handler_getD_self _ _ _ _ (by omega)]
  exact IdtEntry.reassemble_new off hoff _ _

/-- Witness for C6's theorem: vector 0 of a fresh IDT, trampoline address
`0xDEADBEEF`. -/
theorem set_handler_readback_witness :
    (Idt.new.entries.length = 256 ∧ (0 : Nat) ∈ registered_vectors ∧
        (0xDEADBEEF : Nat) < 2 ^ 64) ∧
      ((Idt.new.set_handler 0 0xDEADBEEF).entries.getD 0 IdtEntry.EMPTY).reassemble =
        0xDEADBEEF :=
  ⟨⟨by decide, by decide, by decide⟩,
    set_handler_readback Idt.new 0 0xDEADBEEF (by decide) (by decide) (by decide)⟩

/-! ## Trampoline assembly model (`arch/x86_64/interrupts/handler.rs`)

The trampolines are hand-written `naked_asm!` sequences.  They are embedded
as state transformers over a general-purpose register file, an `rsp` value
and the stack (a list of 64-bit words whose head is the word at address
`rsp`; `push` conses and subtracts 8, `pop` removes the head and adds 8).
`cld` only clears the direction flag and is not represented; `call inner`
pushes and pops a return address (net zero words) and is represented as
applying the inner handler's transformer. -/

/-- The general-purpose registers named by the trampoline assembly. -/
inductive GPReg where
  | rax | rcx | rdx | rdi | rsi | r8 | r9 | r10 | r11
  | rbx | rbp | r12 | r13 | r14 | r15
deriving DecidableEq

/-- A general-purpose register file. -/
structure Regs where
  rax : Nat
  rcx : Nat
  rdx : Nat
  rdi : Nat
  rsi : Nat
  r8 : Nat
  r9 : Nat
  r10 : Nat
  r11 : Nat
  rbx : Nat
  rbp : Nat
  r12 : Nat
  r13 : Nat
  r14 : Nat
  r15 : Nat
deriving DecidableEq

/-- Read one register. -/
def Regs.get (s : Regs) : GPReg → Nat
  | .rax => s.rax
  | .rcx => s.rcx
  | .rdx => s.rdx
  | .rdi => s.rdi
  | .rsi => s.rsi
  | .r8 => s.r8
  | .r9 => s.r9
  | .r10 => s.r10
  | .r11 => s.r11
  | .rbx => s.rbx
  | .rbp => s.rbp
  | .r12 => s.r12
  | .r13 => s.r13
  | .r14 => s.r14
  | .r15 => s.r15

/-- Write one register. -/
def Regs.set (s : Regs) : GPReg → Nat → Regs
  | .rax, v => { s with rax := v }
  | .rcx, v => { s with rcx := v }
  | .rdx, v => { s with rdx := v }
  | .rdi, v => { s with rdi := v }
  | .rsi, v => { s with rsi := v }
  | .r8, v => { s with r8 := v }
  | .r9, v => { s with r9 := v }
  | .r10, v => { s with r10 := v }
  | .r11, v => { s with r11 := v }
  | .rbx, v => { s with rbx := v }
  | .rbp, v => { s with rbp := v }
  | .r12, v => { s with r12 := v }
  | .r13, v => { s with r13 := v }
  | .r14, v => { s with r14 := v }
  | .r15, v => { s with r15 := v }

/-- Trampoline machine state: register file, stack pointer, and the stack
(head of the list is the word at address `rsp`). -/
structure TState where
  regs : Regs
  rsp : Nat
  stack : List Nat
deriving DecidableEq

/-- `push r`. -/
def TState.push (st : TState) (r : GPReg) : TState :=
  ⟨st.regs, st.rsp - 8, st.regs.get r :: st.stack⟩

/-- `pop r` (a pop from an empty stack is never reached by the modelled
sequences and leaves the state unchanged). -/
def TState.pop (st : TState) (r : GPReg) : TState :=
  match st.stack with
  | [] => st
  | v :: rest => ⟨st.regs.set r v, st.rsp + 8, rest⟩

/-- The `push_scratch!` macro body, in instruction order. -/
def push_scratch : List GPReg := [.rcx, .rdx, .rdi, .rsi, .r8, .r9, .r10, .r11]

/-- The `pop_scratch!` macro body, in instruction order. -/
def pop_scratch : List GPReg := [.r11, .r10, .r9, .r8, .rsi, .rdi, .rdx, .rcx]

/-- The `push_preserved!` macro body, in instruction order. -/
def push_preserved : List GPReg := [.rbx, .rbp, .r12, .r13, .r14, .r15]

/-- The `pop_preserved!` macro body, in instruction order. -/
def pop_preserved : List GPReg := [.r15, .r14, .r13, .r12, .rbp, .rbx]

/-- Run a sequence of `push` instructions. -/
def pushSeq (rs : List GPReg) (st : TState) : TState := rs.foldl TState.push st

/-- Run a sequence of `pop` instructions. -/
def popSeq (rs : List GPReg) (st : TState) : TState := rs.foldl TState.pop st

/-- The prologue of the `interrupt_stack!` trampoline:
`push rax`, `push_scratch!`, `push_preserved!`, `mov rdi, rsp`. -/
def interrupt_stack_prologue (st : TState) : TState :=
  let st1 := st.push .rax
  let st2 := pushSeq push_scratch st1
  let st3 := pushSeq push_preserved st2
  { st3 with regs := st3.regs.set .rdi st3.rsp }

/-- The full `interrupt_stack!` trampoline body up to (and not including)
`iretq`: prologue, `call inner`, `pop_preserved!`, `pop_scratch!`. -/
def interrupt_stack (inner : TState → TState) (st : TState) : TState :=
  popSeq pop_scratch (popSeq pop_preserved (inner (interrupt_stack_prologue st)))

/-- `size_of::<ScratchRegisters>()`: nine `u64` fields. -/
def scratch_size : Nat := 9 * 8

/-- `size_of::<PreservedRegisters>()`: six `u64` fields. -/
def preserved_size : Nat := 6 * 8

/-- The `rax_offset` constant of the `interrupt_error!` macro:
`size_of::<PreservedRegisters>() + size_of::<ScratchRegisters>() - 8`. -/
def rax_offset : Nat := preserved_size + scratch_size - 8

/-- The prologue of the `interrupt_error!` trampoline: `push_scratch!`,
`push_preserved!`, `mov rsi, [rsp + rax_offset]`,
`mov [rsp + rax_offset], rax`, `mov rdi, rsp`. -/
def interrupt_error_prologue (st : TState) : TState :=
  let st1 := pushSeq push_scratch st
  let st2 := pushSeq push_preserved st1
  let st3 := { st2 with regs := st2.regs.set .rsi (st2.stack.getD (rax_offset / 8) 0) }
  let st4 := { st3 with stack := st3.stack.set (rax_offset / 8) (st3.regs.get .rax) }
  { st4 with regs := st4.regs.set .rdi st4.rsp }

/-- The full `interrupt_error!` trampoline body up to (and not including)
`iretq`; the inner handler is called with the frame pointer (`rdi`, the
state) and the second argument register `rsi`. -/
def interrupt_error (inner : TState → Nat → TState) (st : TState) : TState :=
  let stp := interrupt_error_prologue st
  popSeq pop_scratch (popSeq pop_preserved (inner stp (stp.regs.get .rsi)))

/-- Field order of `ScratchRegisters` as declared in `handler.rs`. -/
def scratch_field_order : List GPReg :=
  [.r11, .r10, .r9, .r8, .rsi, .rdi, .rdx, .rcx, .rax]

/-- Field order of `PreservedRegisters` as declared in `handler.rs`. -/
def preserved_field_order : List GPReg :=
  [.r15, .r14, .r13, .r12, .rbp, .rbx]

/-- The register slots of `InterruptStackFrame` in declaration order
(`scratch` group first, then `preserved`, then the IRET words). -/
def frame_field_order : List GPReg :=
  scratch_field_order ++ preserved_field_order

/-- A sample register file with pairwise distinct values. -/
def sample_regs : Regs :=
  ⟨1, 2, 3, 4, 5, 6, 7, 8, 9, 10, 11, 12, 13, 14, 15⟩

/-! ## Theorems for the trampoline claims -/

/-- C2: the pop sequence of the stack-style trampoline is not the mirror
image of its push sequence.  With an inner handler that mutates nothing, the
epilogue pops only 14 of the 15 pushed words — `pop_scratch!` has no
`pop rax` — so at the `iretq` the saved `rax` word is still on the stack and
`rsp` sits 8 bytes below its pre-trap value instead of being restored. -/
theorem interrupt_stack_no_mirror (regs : Regs) (rsp : Nat) (stack : List Nat)
    (h : 120 ≤ rsp) :
    interrupt_stack id ⟨regs, rsp, stack⟩ = ⟨regs, rsp - 8, regs.rax :: stack⟩ ∧
      rsp - 8 ≠ rsp := by
  refine ⟨?_, by omega⟩
  simp only [interrupt_stack, interrupt_stack_prologue, pushSeq, popSeq,
    push_scratch, pop_scratch, push_preserved, pop_preserved,
    TState.push, TState.pop, Regs.get, Regs.set, List.foldl, id]
  refine congrArg₂ (fun a b => TState.mk a b (regs.rax :: stack)) ?_ (by omega)
  rfl

/-- Witness for C2's theorem: the sample register file trapped with
`rsp = 1000` over a five-word IRET frame. -/
theorem interrupt_stack_no_mirror_witness :
    (120 : Nat) ≤ 1000 ∧
      (interrupt_stack id ⟨sample_regs, 1000, [111, 222, 333, 444, 555]⟩ =
          ⟨sample_regs, 1000 - 8, sample_regs.rax :: [111, 222, 333, 444, 555]⟩ ∧
        1000 - 8 ≠ 1000) :=
  ⟨by decide, interrupt_stack_no_mirror sample_regs 1000 [111, 222, 333, 444, 555] (by decide)⟩

/-- C3: the prologue's stack layout does not match `InterruptStackFrame`
field-for-field.  The struct declares the scratch group first (so
`scratch.r11` overlays the word the frame pointer points at), but the
prologue pushes the preserved group last, so that word actually holds the
saved `r15`; on a trap state where `r11` and `r15` differ, the overlay
misreads. -/
theorem frame_overlay_mismatch :
    frame_field_order.getD 0 .rax = GPReg.r11 ∧
    (interrupt_stack_prologue ⟨sample_regs, 1000, []⟩).stack.getD 0 0 =
      sample_regs.get .r15 ∧
    sample_regs.get .r15 ≠ sample_regs.get .r11 := by
  decide

/-- C7: for every error-style trap, whatever error-code word the CPU pushed
below the IRET frame (in particular `0xDEADBEEF`) is exactly the second
argument handed to the inner handler, and the prologue has relocated the
saved `rax` into that former error-code slot so the two do not collide. -/
theorem interrupt_error_passes_error_code (inner : TState → Nat → TState)
    (regs : Regs) (rsp error_code : Nat) (rest : List Nat) :
    interrupt_error inner ⟨regs, rsp, error_code :: rest⟩ =
      popSeq pop_scratch (popSeq pop_preserved
        (inner (interrupt_error_prologue ⟨regs, rsp, error_code :: rest⟩) error_code)) ∧
    (interrupt_error_prologue ⟨regs, rsp, error_code :: rest⟩).stack.getD
        (rax_offset / 8) 0 = regs.rax := by
  constructor
  · rfl
  · rfl

/-! ## Exception dispatch policies (`exceptions.rs`, `handler.rs`, `main.rs`) -/

/-- `ScratchRegisters` from `handler.rs` (field-for-field). -/
structure ScratchRegisters where
  r11 : Nat
  r10 : Nat
  r9 : Nat
  r8 : Nat
  rsi : Nat
  rdi : Nat
  rdx : Nat
  rcx : Nat
  rax : Nat
deriving DecidableEq

/-- `PreservedRegisters` from `handler.rs` (field-for-field). -/
structure PreservedRegisters where
  r15 : Nat
  r14 : Nat
  r13 : Nat
  r12 : Nat
  rbp : Nat
  rbx : Nat
deriving DecidableEq

/-- `IretRegisters` from `handler.rs` (field-for-field). -/
structure IretRegisters where
  rip : Nat
  cs : Nat
  rflags : Nat
  rsp : Nat
  ss : Nat
deriving DecidableEq

/-- `InterruptStackFrame` from `handler.rs` (field-for-field). -/
structure InterruptStackFrame where
  scratch : ScratchRegisters
  preserved : PreservedRegisters
  iret : IretRegisters
deriving DecidableEq

/-- One line written to the diagnostic sink: either plain text or a
`name: value` register dump line. -/
inductive LogLine where
  | text (s : String)
  | reg (name : String) (value : Nat)
deriving DecidableEq

/-- `ScratchRegisters::dump`, lines in source order. -/
def ScratchRegisters.dump (s : ScratchRegisters) : List LogLine :=
  [.reg "rax" s.rax, .reg "rcx" s.rcx, .reg "rdx" s.rdx, .reg "rdi" s.rdi,
   .reg "rsi" s.rsi, .reg "r8" s.r8, .reg "r9" s.r9, .reg "r10" s.r10,
   .reg "r11" s.r11]

/-- `PreservedRegisters::dump`, lines in source order. -/
def PreservedRegisters.dump (p : PreservedRegisters) : List LogLine :=
  [.reg "rbx" p.rbx, .reg "rbp" p.rbp, .reg "r12" p.r12, .reg "r13" p.r13,
   .reg "r14" p.r14, .reg "r15" p.r15]

/-- `IretRegisters::dump`, lines in source order. -/
def IretRegisters.dump (i : IretRegisters) : List LogLine :=
  [.reg "rip" i.rip, .reg "cs" i.cs, .reg "rflags" i.rflags, .reg "rsp" i.rsp,
   .reg "ss" i.ss]

/-- `InterruptStackFrame::dump`: scratch, then preserved, then IRET group. -/
def InterruptStackFrame.dump (f : InterruptStackFrame) : List LogLine :=
  f.scratch.dump ++ f.preserved.dump ++ f.iret.dump

/-- What an inner exception policy does after writing its log lines:
return to the trampoline, or panic with a message. -/
inductive HandlerOutcome where
  | returns
  | panics (msg : String)
deriving DecidableEq

/-- From `main.rs`: the kernel panic handler logs the panic location and
message and calls `arch::halt()`, an unconditional `hlt` loop, so a policy
that panics never returns and the processor halts permanently. -/
def HandlerOutcome.halts : HandlerOutcome → Bool
  | .returns => false
  | .panics _ => true

/-- The inner policy of `divide_by_zero` (vector 0) from `exceptions.rs`. -/
def divide_by_zero (stack : InterruptStackFrame) : List LogLine × HandlerOutcome :=
  (stack.dump, .panics "Divide by zero exception")

/-- The inner policy of `debug` (vector 1). -/
def debug (stack : InterruptStackFrame) : List LogLine × HandlerOutcome :=
  (stack.dump, .panics "Debug exception")

/-- The inner policy of `non_maskable_interrupt` (vector 2). -/
def non_maskable_interrupt (stack : InterruptStackFrame) : List LogLine × HandlerOutcome :=
  (stack.dump, .panics "Non-maskable interrupt exception")

/-- The inner policy of `breakpoint` (vector 3): logs, dumps, and returns. -/
def breakpoint (stack : InterruptStackFrame) : List LogLine × HandlerOutcome :=
  (.text "Breakpoint hit!" :: stack.dump, .returns)

/-- The inner policy of `overflow` (vector 4). -/
def overflow (stack : InterruptStackFrame) : List LogLine × HandlerOutcome :=
  (stack.dump, .panics "Overflow exception")

/-- The inner policy of `bound_range_exceeded` (vector 5). -/
def bound_range_exceeded (stack : InterruptStackFrame) : List LogLine × HandlerOutcome :=
  (stack.dump, .panics "Bound range exceeded exception")

/-- The inner policy of `invalid_opcode` (vector 6). -/
def invalid_opcode (stack : InterruptStackFrame) : List LogLine × HandlerOutcome :=
  (stack.dump, .panics "Invalid opcode exception")

/-- The inner policy of `device_not_available` (vector 7). -/
def device_not_available (stack : InterruptStackFrame) : List LogLine × HandlerOutcome :=
  (stack.dump, .panics "Device not available exception")

/-- The inner policy of `double_fault` (vector 8, error-style). -/
def double_fault (stack : InterruptStackFrame) (error_code : Nat) :
    List LogLine × HandlerOutcome :=
  (stack.dump, .panics ("Double fault exception with error code: " ++ toString error_code))

/-- The inner policy of `invalid_tss` (vector 10, error-style). -/
def invalid_tss (stack : InterruptStackFrame) (error_code : Nat) :
    List LogLine × HandlerOutcome :=
  (stack.dump, .panics ("Invalid TSS exception with error code: " ++ toString error_code))

/-- The inner policy of `segment_not_present` (vector 11, error-style). -/
def segment_not_present (stack : InterruptStackFrame) (error_code : Nat) :
    List LogLine × HandlerOutcome :=
  (stack.dump,
    .panics ("Segment not present exception with error code: " ++ toString error_code))

/-- The inner policy of `stack_segment_fault` (vector 12, error-style). -/
def stack_segment_fault (stack : InterruptStackFrame) (error_code : Nat) :
    List LogLine × HandlerOutcome :=
  (stack.dump,
    .panics ("Stack segment fault exception with error code: " ++ toString error_code))

/-- The inner policy of `general_protection_fault` (vector 13, error-style). -/
def general_protection_fault (stack : InterruptStackFrame) (error_code : Nat) :
    List LogLine × HandlerOutcome :=
  (stack.dump,
    .panics ("General protection fault exception with error code: " ++ toString error_code))

/-- The inner policy of `page_fault` (vector 14, error-style). -/
def page_fault (stack : InterruptStackFrame) (error_code : Nat) :
    List LogLine × HandlerOutcome :=
  (stack.dump, .panics ("Page fault exception with error code: " ++ toString error_code))

/-- The inner policy of `x87_floating_point` (vector 16). -/
def x87_floating_point (stack : InterruptStackFrame) : List LogLine × HandlerOutcome :=
  (stack.dump, .panics "x87 floating point exception")

/-- The inner policy of `alignment_check` (vector 17, error-style). -/
def alignment_check (stack : InterruptStackFrame) (error_code : Nat) :
    List LogLine × HandlerOutcome :=
  (stack.dump,
    .panics ("Alignment check exception with error code: " ++ toString error_code))

/-- The inner policy of `machine_check` (vector 18). -/
def machine_check (stack : InterruptStackFrame) : List LogLine × HandlerOutcome :=
  (stack.dump, .panics "Machine check exception")

/-- The inner policy of `simd_floating_point` (vector 19). -/
def simd_floating_point (stack : InterruptStackFrame) : List LogLine × HandlerOutcome :=
  (stack.dump, .panics "SIMD floating point exception")

/-- The inner policy of `virtualization` (vector 20). -/
def virtualization (stack : InterruptStackFrame) : List LogLine × HandlerOutcome :=
  (stack.dump, .panics "Virtualization exception")

/-- The inner policy of `control_protection` (vector 21, error-style). -/
def control_protection (stack : InterruptStackFrame) (error_code : Nat) :
    List LogLine × HandlerOutcome :=
  (stack.dump,
    .panics ("Control protection exception with error code: " ++ toString error_code))

/-- The inner policy of `hypervisor_injection` (vector 28). -/
def hypervisor_injection (stack : InterruptStackFrame) : List LogLine × HandlerOutcome :=
  (stack.dump, .panics "Hypervisor injection exception")

/-- The inner policy of `vmm_communication` (vector 29, error-style). -/
def vmm_communication (stack : InterruptStackFrame) (error_code : Nat) :
    List LogLine × HandlerOutcome :=
  (stack.dump,
    .panics ("VMM communication exception with error code: " ++ toString error_code))

/-- The inner policy of `security_exception` (vector 30, error-style). -/
def security_exception (stack : InterruptStackFrame) (error_code : Nat) :
    List LogLine × HandlerOutcome :=
  (stack.dump, .panics ("Security exception with error code: " ++ toString error_code))

/-- The vector-to-policy binding established by `register_exceptions()`:
the inner policy each registered vector's trampoline dispatches to
(stack-style policies ignore the error-code argument); unregistered vectors
have no policy. -/
def exception_policy (v : Nat) :
    Option (InterruptStackFrame → Nat → List LogLine × HandlerOutcome) :=
  match v with
  | 0 => some fun s _ => divide_by_zero s
  | 1 => some fun s _ => debug s
  | 2 => some fun s _ => non_maskable_interrupt s
  | 3 => some fun s _ => breakpoint s
  | 4 => some fun s _ => overflow s
  | 5 => some fun s _ => bound_range_exceeded s
  | 6 => some fun s _ => invalid_opcode s
  | 7 => some fun s _ => device_not_available s
  | 8 => some fun s e => double_fault s e
  | 10 => some fun s e => invalid_tss s e
  | 11 => some fun s e => segment_not_present s e
  | 12 => some fun s e => stack_segment_fault s e
  | 13 => some fun s e => general_protection_fault s e
  | 14 => some fun s e => page_fault s e
  | 16 => some fun s _ => x87_floating_point s
  | 17 => some fun s e => alignment_check s e
  | 18 => some fun s _ => machine_check s
  | 19 => some fun s _ => simd_floating_point s
  | 20 => some fun s _ => virtualization s
  | 21 => some fun s e => control_protection s e
  | 28 => some fun s _ => hypervisor_injection s
  | 29 => some fun s e => vmm_communication s e
  | 30 => some fun s e => security_exception s e
  | _ => none

/-- A sample interrupt stack frame with distinct register values. -/
def sample_frame : InterruptStackFrame :=
  ⟨⟨11, 10, 9, 8, 5, 4, 3, 2, 1⟩, ⟨15, 14, 13, 12, 21, 20⟩, ⟨31, 32, 33, 34, 35⟩⟩

/-- C8: every registered exception policy writes all three register groups of
the frame to the diagnostic sink, and every policy except breakpoint
(vector 3) then panics — which halts the processor permanently — while the
breakpoint policy alone returns, resuming the interrupted execution. -/
theorem exception_policies_halt_except_breakpoint (v : Nat)
    (f : InterruptStackFrame → Nat → List LogLine × HandlerOutcome)
    (h : exception_policy v = some f) (stack : InterruptStackFrame)
    (error_code : Nat) :
    ((f stack error_code).2.halts = true ↔ v ≠ 3) ∧
    ∀ l ∈ stack.dump, l ∈ (f stack error_code).1 := by
  unfold exception_policy at h
  split at h <;> cases h <;>
    refine ⟨by simp [divide_by_zero, debug, non_maskable_interrupt, breakpoint,
        overflow, bound_range_exceeded, invalid_opcode, device_not_available,
        double_fault, invalid_tss, segment_not_present, stack_segment_fault,
        general_protection_fault, page_fault, x87_floating_point,
        alignment_check, machine_check, simd_floating_point, virtualization,
        control_protection, hypervisor_injection, vmm_communication,
        security_exception, HandlerOutcome.halts], ?_⟩ <;>
    intro l hl <;>
    simp [divide_by_zero, debug, non_maskable_interrupt, breakpoint, overflow,
      bound_range_exceeded, invalid_opcode, device_not_available, double_fault,
      invalid_tss, segment_not_present, stack_segment_fault,
      general_protection_fault, page_fault, x87_floating_point, alignment_check,
      machine_check, simd_floating_point, virtualization, control_protection,
      hypervisor_injection, vmm_communication, security_exception, hl]

/-- Witness for C8's theorem: vector 0's policy on the sample frame with
error code `0xDEADBEEF`. -/
theorem exception_policies_halt_witness :
    exception_policy 0 = some (fun s _ => divide_by_zero s) ∧
      ((((fun (s : InterruptStackFrame) (_ : Nat) => divide_by_zero s)
            sample_frame 0xDEADBEEF).2.halts = true ↔ (0 : Nat) ≠ 3) ∧
        ∀ l ∈ sample_frame.dump,
          l ∈ (((fun (s : InterruptStackFrame) (_ : Nat) => divide_by_zero s)
            sample_frame 0xDEADBEEF)).1) :=
  ⟨rfl, exception_policies_halt_except_breakpoint 0 _ rfl sample_frame 0xDEADBEEF⟩

/-! ## Boot sequence (`arch/x86_64/mod.rs`, `main.rs`) -/

/-- One step of the boot path, one per statement of `x86_64_main` and
`kmain` that this model distinguishes; `set_handler_step` stands for any
write of an IDT entry (as `register_exceptions` would perform). -/
inductive BootStep where
  | disable_interrupts
  | uart_init
  | logger_init
  | gdt_init
  | idt_init
  | framebuffer_draw
  | enable_interrupts
  | halt
  | set_handler_step (vector : Nat) (offset : Nat)
deriving DecidableEq

/-- The kernel state the boot steps act on: the IDT singleton and the CPU
interrupt-enable flag. -/
structure KernelState where
  idt : Idt
  interrupts_enabled : Bool
deriving DecidableEq

/-- Effect of one boot step.  `gdt_init` and `idt_init` build and load
descriptor tables but write no IDT entry; the UART, logger and framebuffer
steps do not touch this state at all. -/
def BootStep.run (st : KernelState) : BootStep → KernelState
  | .disable_interrupts => { st with interrupts_enabled := false }
  | .enable_interrupts => { st with interrupts_enabled := true }
  | .set_handler_step v off => { st with idt := st.idt.set_handler v off }
  | _ => st

/-- The boot path translated statement-for-statement from `x86_64_main` in
`arch/x86_64/mod.rs` (disable interrupts, UART init, logger init,
`gdt::init()`, `interrupts::idt::init()`, then `kmain()`) and from `kmain`
in `main.rs` (framebuffer fill, `enable_interrupts()`, `halt()`).  No call
to `register_exceptions` — and therefore no `set_handler_step` — appears
anywhere on this path. -/
def boot_sequence : List BootStep :=
  [.disable_interrupts, .uart_init, .logger_init, .gdt_init, .idt_init,
   .framebuffer_draw, .enable_interrupts, .halt]

/-- State at boot handoff: fresh IDT singleton, interrupts masked by reset
state. -/
def boot_init_state : KernelState := ⟨Idt.new, false⟩

/-- The kernel state at the moment `enable_interrupts()` executes: the fold
of every boot step that precedes it. -/
def state_at_enable : KernelState :=
  (boot_sequence.takeWhile (fun s => s != .enable_interrupts)).foldl
    (fun st s => s.run st) boot_init_state

/-- C1 fails on the code: `enable_interrupts` is reached on the boot path,
yet at that moment every one of the 23 exception vectors still holds the
empty entry (reassembled handler offset 0) — `register_exceptions()` is
never called, so no vector is populated before interrupts are enabled. -/
theorem boot_enable_without_registration :
    BootStep.enable_interrupts ∈ boot_sequence ∧
    ∀ v ∈ registered_vectors,
      state_at_enable.idt.entries.getD v IdtEntry.EMPTY = IdtEntry.EMPTY ∧
      (state_at_enable.idt.entries.getD v IdtEntry.EMPTY).reassemble = 0 := by
  decide

/-! ## Physical address alignment (`memory/addr.rs`) -/

/-- `AddrError` from `addr.rs`. -/
inductive AddrError where
  | InvalidAlign
deriving DecidableEq

/-- `PhysAddr` from `addr.rs`: a `u64`. -/
structure PhysAddr where
  val : Nat
deriving DecidableEq

/-- `u64::is_power_of_two` from the Rust standard library (external to this
repository), modelled by its documented specification: true exactly when
the value equals `2 ^ k` for some `k` (for a `u64`, necessarily `k < 64`). -/
def u64_is_power_of_two (n : Nat) : Bool := decide (∃ k, k < 64 ∧ n = 2 ^ k)

/-- Bitwise complement of a 64-bit value. -/
def u64_not (x : Nat) : Nat := (2 ^ 64 - 1) ^^^ x

/-- `PhysAddr::align_down` from `addr.rs`: `Err(InvalidAlign)` unless
`align` is a power of two, otherwise `Ok(self & !(align - 1))`. -/
def PhysAddr.align_down (a : PhysAddr) (align : Nat) : Except AddrError PhysAddr :=
  if !u64_is_power_of_two align then .error .InvalidAlign
  else .ok ⟨a.val &&& u64_not (align - 1)⟩

theorem and_not_two_pow_sub_one (a k : Nat) (ha : a < 2 ^ 64) (hk : k < 64) :
    a &&& u64_not (2 ^ k - 1) = 2 ^ k * (a / 2 ^ k) := by
  have h1 : 2 ^ k * (a / 2 ^ k) = (a >>> k) <<< k := by
    rw [Nat.shiftRight_eq_div_pow, Nat.shiftLeft_eq]; ring
  rw [h1]
  apply Nat.eq_of_testBit_eq
  intro i
  simp only [u64_not, Nat.testBit_and, Nat.testBit_xor, Nat.testBit_two_pow_sub_one,
    Nat.testBit_shiftLeft, Nat.testBit_shiftRight]
  by_cases hik : i < k
  · simp [hik, (by omega : i < 64), (by omega : ¬ k ≤ i)]
  · by_cases hi64 : i < 64
    · simp [hik, hi64, (by omega : k ≤ i), (by omega : k + (i - k) = i)]
    · have hz : a.testBit i = false :=
        Nat.testBit_lt_two_pow
          (lt_of_lt_of_le ha (Nat.pow_le_pow_right (by omega) (by omega)))
      have hz2 : a.testBit (k + (i - k)) = false := by
        rw [(by omega : k + (i - k) = i)]; exact hz
      simp [hik, hi64, hz, hz2]

/-- C10: `align_down` returns `Err(InvalidAlign)` exactly when `align` is
not a power of two; for `align = 2 ^ k` it returns `Ok` of the greatest
multiple of `align` that is at most the address. -/
theorem align_down_spec (a : PhysAddr) (align : Nat)
    (ha : a.val < 2 ^ 64) (hal : align < 2 ^ 64) :
    ((a.align_down align = .error .InvalidAlign) ↔ ¬ ∃ k, k < 64 ∧ align = 2 ^ k) ∧
    ∀ k, k < 64 → align = 2 ^ k →
      a.align_down align = .ok ⟨align * (a.val / align)⟩ ∧
      align ∣ align * (a.val / align) ∧
      align * (a.val / align) ≤ a.val ∧
      ∀ m, align ∣ m → m ≤ a.val → m ≤ align * (a.val / align) := by
  constructor
  · by_cases hp : ∃ k, k < 64 ∧ align = 2 ^ k
    · have hb : u64_is_power_of_two align = true := by
        simpa [u64_is_power_of_two] using hp
      simp [PhysAddr.align_down, hb, hp]
    · have hb : u64_is_power_of_two align = false := by
        simpa [u64_is_power_of_two] using hp
      simp [PhysAddr.align_down, hb, hp]
  · rintro k hk rfl
    have hb : u64_is_power_of_two (2 ^ k) = true := by
      simp only [u64_is_power_of_two, decide_eq_true_eq]
      exact ⟨k, hk, rfl⟩
    refine ⟨?_, dvd_mul_right _ _, ?_, ?_⟩
    · simp [PhysAddr.align_down, hb, and_not_two_pow_sub_one a.val k ha hk]
    · rw [Nat.mul_comm]; exact Nat.div_mul_le_self _ _
    · rintro m ⟨j, rfl⟩ hle
      have hpos : 0 < 2 ^ k := Nat.pos_pow_of_pos k (by omega)
      have hj : j ≤ a.val / 2 ^ k := by
        rw [Nat.le_div_iff_mul_le hpos]
        calc j * 2 ^ k = 2 ^ k * j := Nat.mul_comm _ _
          _ ≤ a.val := hle
      exact Nat.mul_le_mul_left _ hj

/-- Witness for C10's theorem at address 1000 with alignment 8. -/
theorem align_down_spec_witness :
    ((1000 : Nat) < 2 ^ 64 ∧ (8 : Nat) < 2 ^ 64) ∧
      ((PhysAddr.align_down ⟨1000⟩ 8 = .error .InvalidAlign) ↔
        ¬ ∃ k, k < 64 ∧ (8 : Nat) = 2 ^ k) :=
  ⟨⟨by decide, by decide⟩, (align_down_spec ⟨1000⟩ 8 (by decide) (by decide)).1⟩
